import Mathlib

/-!
Shallow embedding of the core of `conduit-dashboard.py` (a fleet health
collector).  Remote execution is modelled by a `World` function mapping the
full shell command text to the outcome of `subprocess.run`; the global
strategy / hardware caches are passed explicitly; decimal quantities are
modelled as exact rationals; Python strings are modelled as `String`, with
all scanning done on `List Char` (code points, as Python compares them).
-/

namespace Dashboard

/-- Python string comparison (`<=` on `str`): lexicographic on code points. -/
def lexLe : List Char → List Char → Bool
  | [], _ => true
  | _ :: _, [] => false
  | a :: as, b :: bs =>
    if a.toNat < b.toNat then true
    else if b.toNat < a.toNat then false
    else lexLe as bs

/-- `a <= b` for Python strings. -/
def pyStrLe (a b : String) : Bool := lexLe a.data b.data

/-- Python `\s` (ASCII range), as used by `str.strip` and `re`. -/
def isSpaceC (c : Char) : Bool :=
  c = ' ' || c = '\t' || c = '\n' || c = '\x0d' || c = '\x0b' || c = '\x0c'

/-- Python `str.strip()` on char lists. -/
def stripL (cs : List Char) : List Char :=
  ((cs.dropWhile isSpaceC).reverse.dropWhile isSpaceC).reverse

/-- Python `str.strip()`. -/
def pyStrip (s : String) : String := ⟨stripL s.data⟩

/-- Split on a single separator character, Python `str.split(sep)`. -/
def splitOnCharL (sep : Char) : List Char → List (List Char)
  | [] => [[]]
  | c :: cs =>
    match splitOnCharL sep cs with
    | [] => [[c]]
    | g :: gs => if c = sep then [] :: g :: gs else (c :: g) :: gs

/-- Python `s.split(sep, 1)`: split at the first occurrence only. -/
def splitFirstL (sep : Char) : List Char → Option (List Char × List Char)
  | [] => none
  | c :: cs =>
    if c = sep then some ([], cs)
    else match splitFirstL sep cs with
      | some (a, b) => some (c :: a, b)
      | none => none

/-- Python `str.replace(pat, rep)`: replace all occurrences, left to right.
Structural on a fuel argument that bounds the remaining length. -/
def replaceL (pat rep : List Char) : ℕ → List Char → List Char
  | _, [] => []
  | 0, s => s
  | fuel + 1, c :: cs =>
    if pat ≠ [] && pat.isPrefixOf (c :: cs) then
      rep ++ replaceL pat rep fuel ((c :: cs).drop pat.length)
    else
      c :: replaceL pat rep fuel cs

/-- Python `str.replace` on `String`. -/
def pyReplace (s pat rep : String) : String :=
  ⟨replaceL pat.data rep.data s.data.length s.data⟩

/-- Python `str.startswith`. -/
def startsWithL (pat s : List Char) : Bool := pat.isPrefixOf s

def digitsToNat (ds : List Char) : ℕ :=
  ds.foldl (fun acc c => 10 * acc + (c.toNat - 48)) 0

/-- Digits of an unsigned decimal capture of `[0-9.]+`, as Python `float`
parses it: at most one dot, at least one digit; two dots or a lone dot
raise.  Result: integer part, fractional digits value, fractional length. -/
def parseDecParts? (cs : List Char) : Option (ℕ × ℕ × ℕ) :=
  match splitOnCharL '.' cs with
  | [a] =>
    if a ≠ [] && a.all Char.isDigit then some (digitsToNat a, 0, 0) else none
  | [a, b] =>
    if (a ++ b) ≠ [] && a.all Char.isDigit && b.all Char.isDigit then
      some (digitsToNat a, digitsToNat b, b.length)
    else none
  | _ => none

/-- The rational value of parsed decimal parts. -/
def decVal (p : ℕ × ℕ × ℕ) : ℚ := (p.1 : ℚ) + (p.2.1 : ℚ) / ((10 : ℚ) ^ p.2.2)

/-- Value of an unsigned decimal capture of `[0-9.]+`. -/
def parseDec? (cs : List Char) : Option ℚ := (parseDecParts? cs).map decVal

/-- Python `float(s)` on plain decimal notation (optional sign, digits, one
optional dot); scientific notation and named values are out of the modelled
input space. -/
def pyFloat? (s : String) : Option ℚ :=
  match stripL s.data with
  | c :: rest =>
    if c = '-' then (parseDec? rest).map (fun q => -q)
    else if c = '+' then parseDec? rest
    else parseDec? (c :: rest)
  | [] => parseDec? []

/-- Python `int(s)` on optional sign plus digits. -/
def pyInt? (s : String) : Option ℤ :=
  let digitsOf : List Char → Option ℤ := fun ds =>
    if ds ≠ [] && ds.all Char.isDigit then some (digitsToNat ds : ℤ) else none
  match stripL s.data with
  | c :: rest =>
    if c = '-' then (digitsOf rest).map (fun n => -n)
    else if c = '+' then digitsOf rest
    else digitsOf (c :: rest)
  | [] => digitsOf []

/-- Round to the nearest integer, ties to even (IEEE / Python rounding). -/
def halfEven (x : ℚ) : ℤ :=
  let f := ⌊x⌋
  let r := x - (f : ℚ)
  if r < 1 / 2 then f
  else if 1 / 2 < r then f + 1
  else if f % 2 = 0 then f else f + 1

/-- Python `round(v, 1)`. -/
def pyRound1 (v : ℚ) : ℚ := ((halfEven (v * 10) : ℚ)) / 10

/-- Python `f"{v:.1f}"` for a nonnegative quantity. -/
def fmt1 (v : ℚ) : String :=
  let n := halfEven (v * 10)
  toString (n / 10) ++ "." ++ toString (n % 10)

/-! ## Data model -/

/-- One line of `conduit-vps.conf`, as produced by `parse_config`. -/
structure Vps where
  «alias» : String
  user : String
  ip : String
  port : String
  password : String
  comment : String
deriving DecidableEq

/-- Outcome of `subprocess.run(full_cmd, shell=True, capture_output=True,
text=True, timeout=SSH_TIMEOUT)`: a completed process (any exit code) with
its captured stdout, a `TimeoutExpired`, or any other raised exception. -/
inductive SubprocOutcome where
  | completed (exitCode : ℤ) (stdout : String)
  | timedOut
  | raised
deriving DecidableEq

/-- The environment: what `subprocess.run` does for each full command text. -/
def World := String → SubprocOutcome

/-! ## Remote Executor (`ssh_command`) -/

def SSH_CONNECT_TIMEOUT : ℕ := 10
def SSH_Server_Alive_Interval : ℕ := 30

def ssh_opts : String :=
  "-o StrictHostKeyChecking=no -o ConnectTimeout=" ++ toString SSH_CONNECT_TIMEOUT ++
    " -o ServerAliveInterval=" ++ toString SSH_Server_Alive_Interval

/-- The full shell invocation `ssh_command` builds for a target and command:
`sshpass`-wrapped ssh when a password is configured, plain ssh otherwise, and
the bare command for the reserved local markers. -/
def buildSshCmd (vps : Vps) (cmd : String) : String :=
  let remote :=
    if vps.password ≠ "" ∧ vps.password ≠ "-" then
      "sshpass -p \x27" ++ vps.password ++ "\x27 ssh " ++ ssh_opts ++ " -p " ++ vps.port ++
        " " ++ vps.user ++ "@" ++ vps.ip ++ " \"" ++ cmd ++ "\""
    else
      "ssh " ++ ssh_opts ++ " -p " ++ vps.port ++ " " ++ vps.user ++ "@" ++ vps.ip ++
        " \"" ++ cmd ++ "\""
  if vps.ip = "127.0.0.1" ∨ vps.ip = "LOCAL" ∨ vps.ip = "Local" ∨ vps.ip = "local" then
    cmd
  else
    remote

/-- `ssh_command(vps, cmd)`: returns the stripped stdout of a completed run
(whatever its exit code), and `none` when `subprocess.run` raised (timeout or
transport-level exception).  Second component: the commands executed. -/
def ssh_command (w : World) (vps : Vps) (cmd : String) : Option String × List String :=
  let full := buildSshCmd vps cmd
  (match w full with
   | .completed _ out => some (pyStrip out)
   | .timedOut => none
   | .raised => none,
   [full])

/-- `_sh_single_quote`. -/
def _sh_single_quote (s : String) : String :=
  "\x27" ++ pyReplace s "\x27" "\x27\"\x27\"\x27" ++ "\x27"

/-! ## Privilege Strategy Resolver (`get_docker_prefix`) -/

/-- Cache key: `f"{user}@{ip}:{port}"` (`_vps_key` builds the same string). -/
def vpsKey (vps : Vps) : String := vps.user ++ "@" ++ vps.ip ++ ":" ++ vps.port

/-- `probe and probe.strip() == "OK"`: the probe output is truthy and strips
to `OK`. -/
def probeOk (r : Option String) : Bool :=
  match r with
  | some s => s ≠ "" && pyStrip s = "OK"
  | none => false

def probeCmd1 : String := "docker info >/dev/null 2>&1 && echo OK || echo FAIL"

def probeCmd2 : String := "sudo -n docker info >/dev/null 2>&1 && echo OK || echo FAIL"

def probeCmd3 (pw : String) : String :=
  "echo " ++ pw ++ " | sudo -S -p \x27\x27 docker info >/dev/null 2>&1 && echo OK || echo FAIL"

/-- Does the target carry a usable credential
(`vps.get("password") and vps["password"] != "-"`)? -/
def usablePassword (vps : Vps) : Prop := vps.password ≠ "" ∧ vps.password ≠ "-"

instance (vps : Vps) : Decidable (usablePassword vps) := by
  unfold usablePassword; infer_instance

/-- The probe cascade of `get_docker_prefix` (lines between the two lock
sections): plain docker, then `sudo -n`, then — only with a usable password —
`sudo -S` with the quoted password piped in; empty prefix if all attempted
probes fail.  Returns the discovered prefix and the executed commands. -/
def discoverPfx (w : World) (vps : Vps) : String × List String :=
  let r1 := ssh_command w vps probeCmd1
  if probeOk r1.1 then ("", r1.2)
  else
    let r2 := ssh_command w vps probeCmd2
    if probeOk r2.1 then ("sudo -n ", r1.2 ++ r2.2)
    else
      if usablePassword vps then
        let pw := _sh_single_quote vps.password
        let r3 := ssh_command w vps (probeCmd3 pw)
        (if probeOk r3.1 then "echo " ++ pw ++ " | sudo -S -p \x27\x27 " else "",
         r1.2 ++ r2.2 ++ r3.2)
      else
        ("", r1.2 ++ r2.2)

/-- `get_docker_prefix(vps)`: consult the cache under the lock; on a miss run
the probe cascade and store the result.  The cache is passed explicitly
(association list, newest entry first, modelling the module-level dict). -/
def get_docker_prefix (w : World) (cache : List (String × String)) (vps : Vps) :
    String × List (String × String) × List String :=
  match cache.lookup (vpsKey vps) with
  | some p => (p, cache, [])
  | none =>
    let d := discoverPfx w vps
    (d.1, (vpsKey vps, d.1) :: cache, d.2)

/-- `docker_command(vps, docker_args)`. -/
def docker_command (w : World) (cache : List (String × String)) (vps : Vps)
    (args : String) : Option String × List (String × String) × List String :=
  let d := get_docker_prefix w cache vps
  let r := ssh_command w vps (d.1 ++ "docker " ++ args)
  (r.1, d.2.1, d.2.2 ++ r.2)

/-! ## Metric Extractor: models of the `re.search` patterns -/

/-- Match a literal at the head, returning the remainder. -/
def dropPre? : List Char → List Char → Option (List Char)
  | [], cs => some cs
  | _ :: _, [] => none
  | p :: ps, c :: cs => if p = c then dropPre? ps cs else none

/-- `re.search`: try the pattern at every position, leftmost match wins. -/
def searchIn {α : Type} (f : List Char → Option α) : List Char → Option α
  | [] => f []
  | c :: cs =>
    match f (c :: cs) with
    | some r => some r
    | none => searchIn f cs

/-- Pattern `LABEL\s*(\d+)` at one position (as in `Connecting:\s*(\d+)`). -/
def tryLabeledNat (lab : List Char) (cs : List Char) : Option ℕ :=
  match dropPre? lab cs with
  | none => none
  | some rest =>
    let ds := (rest.dropWhile isSpaceC).takeWhile Char.isDigit
    if ds = [] then none else some (digitsToNat ds)

/-- `re.search(r"LABEL\s*(\d+)", s)`. -/
def searchLabeledNat (lab : String) (s : String) : Option ℕ :=
  searchIn (tryLabeledNat lab.data) s.data

def isDigitDot (c : Char) : Bool := c.isDigit || c = '.'

/-- First unit token of the alternation that is a prefix of `cs`. -/
def matchUnit (units : List (List Char)) (cs : List Char) : Option String :=
  match units with
  | [] => none
  | u :: us =>
    match dropPre? u cs with
    | some _ => some ⟨u⟩
    | none => matchUnit us cs

/-- Pattern `LABEL\s*([\d.]+)\s*(U1|U2|...)` at one position; with an empty
label the quantity must start here (`([\d.]+)\s*(KiB|...)`).  The greedy
`[\d.]+` never backtracks usefully (units and whitespace contain no digit or
dot), so maximal munch is exact. -/
def tryNumUnitAt (lab : List Char) (units : List (List Char)) (cs : List Char) :
    Option (List Char × String) :=
  match dropPre? lab cs with
  | none => none
  | some rest =>
    let r2 := if lab = [] then rest else rest.dropWhile isSpaceC
    let num := r2.takeWhile isDigitDot
    if num = [] then none
    else
      match matchUnit units ((r2.drop num.length).dropWhile isSpaceC) with
      | some u => some (num, u)
      | none => none

/-- `re.search(r"LABEL\s*([\d.]+)\s*(U1|U2|...)", s)`. -/
def searchNumUnit (lab : String) (units : List String) (s : String) :
    Option (List Char × String) :=
  searchIn (tryNumUnitAt lab.data (units.map String.data)) s.data

/-- Pattern `Bootstrapped (\d+)%` at one position. -/
def tryBootstrapAt (cs : List Char) : Option ℕ :=
  match dropPre? "Bootstrapped ".data cs with
  | none => none
  | some rest =>
    let ds := rest.takeWhile Char.isDigit
    if ds = [] then none
    else if (rest.drop ds.length).head? = some '%' then some (digitsToNat ds) else none

/-- `re.search(r"Bootstrapped (\d+)%", s)`. -/
def searchBootstrap (s : String) : Option ℕ := searchIn tryBootstrapAt s.data

/-- Terminator `(?:\s+\(|$)` of the uptime pattern: end of input, or at least
one whitespace character followed by `(`. -/
def upTermAt (cs : List Char) : Bool :=
  cs = [] ||
    (let k := (cs.takeWhile isSpaceC).length
     decide (1 ≤ k) && (cs.drop k).head? = some '(')

/-- Lazy `(.+?)` of the uptime pattern: grow the capture one character at a
time until the terminator matches. -/
def upCapAux (acc : List Char) : List Char → Option (List Char)
  | [] => none
  | c :: rest =>
    let acc2 := acc ++ [c]
    if upTermAt rest then some acc2 else upCapAux acc2 rest

/-- Greedy `\s+` of the uptime pattern, backtracking from the maximal run. -/
def upTryWsAt (afterUp : List Char) : ℕ → Option (List Char)
  | 0 => none
  | k + 1 =>
    match upCapAux [] (afterUp.drop (k + 1)) with
    | some cap => some cap
    | none => upTryWsAt afterUp k

/-- Pattern `Up\s+(.+?)(?:\s+\(|$)` at one position. -/
def upDurTryAt (cs : List Char) : Option (List Char) :=
  match dropPre? "Up".data cs with
  | none => none
  | some rest =>
    let m := (rest.takeWhile isSpaceC).length
    if m = 0 then none else upTryWsAt rest m

/-- `re.search(r"Up\s+(.+?)(?:\s+\(|$)", status)`, returning group 1. -/
def upDurSearch (status : String) : Option String :=
  (searchIn upDurTryAt status.data).map (fun cs => (⟨cs⟩ : String))

/-- Pattern `(\d+(?:\.\d+)?)` at one position (hardware memory probe). -/
def tryPlainDec (cs : List Char) : Option ℚ :=
  let ds := cs.takeWhile Char.isDigit
  if ds = [] then none
  else
    match cs.drop ds.length with
    | '.' :: rest =>
      let fs := rest.takeWhile Char.isDigit
      if fs = [] then some (digitsToNat ds)
      else some ((digitsToNat ds : ℚ) + (digitsToNat fs : ℚ) / ((10 : ℚ) ^ fs.length))
    | _ => some (digitsToNat ds)

/-- `re.search(r"(\d+(?:\.\d+)?)", s)`, as a value. -/
def searchPlainDec (s : String) : Option ℚ := searchIn tryPlainDec s.data

/-! ## HostSnapshot (the `stats` dict of `get_vps_stats`) -/

/-- The `stats` dict built by `get_vps_stats`.  `cpu_cores` and
`memory_total_mb` are only inserted on the online path, hence `Option`. -/
structure Stats where
  «alias» : String
  ip : String
  comment : String
  online : Bool
  conduit_running : Bool
  conduit_uptime : String
  connections : ℕ
  connecting : ℕ
  conduit_up : String
  conduit_down : String
  conduit_up_gb : ℚ
  conduit_down_gb : ℚ
  conduit2_running : Bool
  conduit2_uptime : String
  connections2 : ℕ
  connecting2 : ℕ
  conduit2_up : String
  conduit2_down : String
  conduit2_up_gb : ℚ
  conduit2_down_gb : ℚ
  snowflake_running : Bool
  snowflake_uptime : String
  snowflake_clients : ℤ
  torbridge_running : Bool
  torbridge_uptime : String
  torbridge_bootstrap : ℕ
  cpu_percent : ℚ
  memory_mb : ℚ
  memory_percent : ℚ
  uptime : String
  cpu_cores : Option ℕ
  memory_total_mb : Option ℚ
deriving DecidableEq

/-- The dict literal at the top of `get_vps_stats`: every field at its
documented default. -/
def initStats (vps : Vps) : Stats where
  «alias» := vps.«alias»
  ip := vps.ip
  comment := vps.comment
  online := false
  conduit_running := false
  conduit_uptime := "N/A"
  connections := 0
  connecting := 0
  conduit_up := "N/A"
  conduit_down := "N/A"
  conduit_up_gb := 0
  conduit_down_gb := 0
  conduit2_running := false
  conduit2_uptime := "N/A"
  connections2 := 0
  connecting2 := 0
  conduit2_up := "N/A"
  conduit2_down := "N/A"
  conduit2_up_gb := 0
  conduit2_down_gb := 0
  snowflake_running := false
  snowflake_uptime := "N/A"
  snowflake_clients := 0
  torbridge_running := false
  torbridge_uptime := "N/A"
  torbridge_bootstrap := 0
  cpu_percent := 0
  memory_mb := 0
  memory_percent := 0
  uptime := "N/A"
  cpu_cores := none
  memory_total_mb := none

/-! ## Host Facts Cache (`get_vps_hardware`) -/

def coresCmd : String :=
  "nproc 2>/dev/null || getconf _NPROCESSORS_ONLN 2>/dev/null || grep -c \x27^processor\x27 /proc/cpuinfo 2>/dev/null"

def memCmd : String :=
  "grep -i \x27^MemTotal:\x27 /proc/meminfo 2>/dev/null | awk \x27\x7bprint $2\x7d\x27"

/-- `get_vps_hardware(vps)`: core count (default 1 on parse failure or a
non-positive value) and total memory in MB (default 0), cached per
connection identity. -/
def get_vps_hardware (w : World) (hw : List (String × ℕ × ℚ)) (vps : Vps) :
    (ℕ × ℚ) × List (String × ℕ × ℚ) × List String :=
  let key := vpsKey vps
  match hw.lookup key with
  | some (c, m) => ((c, m), hw, [])
  | none =>
    let r1 := ssh_command w vps coresCmd
    let cpu_cores :=
      match pyInt? (pyStrip (r1.1.getD "")) with
      | some n => if n ≤ 0 then 1 else n.toNat
      | none => 1
    let r2 := ssh_command w vps memCmd
    let mem_total_mb :=
      match searchPlainDec (pyStrip (r2.1.getD "")) with
      | some kb => if kb / 1024 ≤ 0 then (0 : ℚ) else kb / 1024
      | none => 0
    ((cpu_cores, mem_total_mb), (key, cpu_cores, mem_total_mb) :: hw, r1.2 ++ r2.2)

/-! ## Metric Extractor: the four rules applied to a `stats` dict -/

/-- Status-line rule: `is_up = status.startswith("Up")`; the uptime label is
extracted by the independent `Up\s+(.+?)(?:\s+\(|$)` search, only attempted
when `is_up`. -/
def statusFields (status : String) : Bool × String :=
  let is_up := startsWithL "Up".data status.data
  let uptime_str :=
    if is_up then
      match upDurSearch status with
      | some cap => pyStrip cap
      | none => "N/A"
    else "N/A"
  (is_up, uptime_str)

/-- One line of `docker ps -a --format "..Names|..Status"`: skip lines with no
`|`, split at the first `|`, classify by exact container name. -/
def applyContainerLine (st : Stats) (line : String) : Stats :=
  match splitFirstL '|' line.data with
  | none => st
  | some (nameCs, statusCs) =>
    let name : String := ⟨nameCs⟩
    let f := statusFields ⟨statusCs⟩
    if name = "conduit" then
      { st with conduit_running := f.1, conduit_uptime := f.2 }
    else if name = "conduit2" then
      { st with conduit2_running := f.1, conduit2_uptime := f.2 }
    else if name = "snowflake" then
      { st with snowflake_running := f.1, snowflake_uptime := f.2 }
    else if name = "tor-bridge" then
      { st with torbridge_running := f.1, torbridge_uptime := f.2 }
    else st

/-- `if container_info:` then the per-line loop. -/
def applyContainers (info : Option String) (st : Stats) : Stats :=
  match info with
  | some s =>
    if s ≠ "" then
      ((splitOnCharL '\n' s.data).map (fun cs => (⟨cs⟩ : String))).foldl applyContainerLine st
    else st
  | none => st

/-- The four conduit tunnel fields as they sit in the `stats` dict. -/
structure TunnelStats where
  connecting : ℕ
  connections : ℕ
  up_disp : String
  down_disp : String
  up_gb : ℚ
  down_gb : ℚ
deriving DecidableEq

def tunnelDefault : TunnelStats :=
  { connecting := 0, connections := 0, up_disp := "N/A", down_disp := "N/A",
    up_gb := 0, down_gb := 0 }

def tunnelUnits : List String := ["GB", "MB", "KB"]

/-- Unit conversion of the `Up:`/`Down:` branches: `KB` divides by 1024·1024,
`MB` by 1024, `GB` passes through; the display string is `f"{val:.1f} UNIT"`. -/
def tunnelConv (v : ℚ) (unit : String) : ℚ × String :=
  if unit = "KB" then (v / 1024 / 1024, fmt1 v ++ " KB")
  else if unit = "MB" then (v / 1024, fmt1 v ++ " MB")
  else (v, fmt1 v ++ " GB")

/-- Tunnel-stats rule (`[STATS]` log line): the four labeled patterns are
searched one after the other, each updating its own field when it matches;
`float` on a matched quantity capture that is not a valid decimal raises
(`none`). -/
def parseTunnelLine (t : TunnelStats) (line : String) : Option TunnelStats :=
  let t1 :=
    match searchLabeledNat "Connecting:" line with
    | some n => { t with connecting := n }
    | none => t
  let t2 :=
    match searchLabeledNat "Connected:" line with
    | some n => { t1 with connections := n }
    | none => t1
  match searchNumUnit "Up:" tunnelUnits line with
  | some (cap, unit) =>
    match parseDec? cap with
    | none => none
    | some v =>
      let c := tunnelConv v unit
      let t3 := { t2 with up_gb := c.1, up_disp := c.2 }
      match searchNumUnit "Down:" tunnelUnits line with
      | some (cap2, unit2) =>
        match parseDec? cap2 with
        | none => none
        | some v2 =>
          let c2 := tunnelConv v2 unit2
          some { t3 with down_gb := c2.1, down_disp := c2.2 }
      | none => some t3
  | none =>
    match searchNumUnit "Down:" tunnelUnits line with
    | some (cap2, unit2) =>
      match parseDec? cap2 with
      | none => none
      | some v2 =>
        let c2 := tunnelConv v2 unit2
        some { t2 with down_gb := c2.1, down_disp := c2.2 }
    | none => some t2

/-- `if stats_line:` guard followed by the tunnel-stats rule for conduit 1. -/
def applyTunnel1 (line : Option String) (st : Stats) : Option Stats :=
  match line with
  | some s =>
    if s ≠ "" then
      match parseTunnelLine
          { connecting := st.connecting, connections := st.connections,
            up_disp := st.conduit_up, down_disp := st.conduit_down,
            up_gb := st.conduit_up_gb, down_gb := st.conduit_down_gb } s with
      | none => none
      | some t =>
        some { st with connecting := t.connecting, connections := t.connections,
                       conduit_up := t.up_disp, conduit_down := t.down_disp,
                       conduit_up_gb := t.up_gb, conduit_down_gb := t.down_gb }
    else some st
  | none => some st

/-- `if stats_line2:` guard followed by the tunnel-stats rule for conduit 2. -/
def applyTunnel2 (line : Option String) (st : Stats) : Option Stats :=
  match line with
  | some s =>
    if s ≠ "" then
      match parseTunnelLine
          { connecting := st.connecting2, connections := st.connections2,
            up_disp := st.conduit2_up, down_disp := st.conduit2_down,
            up_gb := st.conduit2_up_gb, down_gb := st.conduit2_down_gb } s with
      | none => none
      | some t =>
        some { st with connecting2 := t.connecting, connections2 := t.connections,
                       conduit2_up := t.up_disp, conduit2_down := t.down_disp,
                       conduit2_up_gb := t.up_gb, conduit2_down_gb := t.down_gb }
    else some st
  | none => some st

/-- Snowflake client count: `int(out.strip())` guarded by try/except. -/
def applySnowflake (out : Option String) (st : Stats) : Stats :=
  match out with
  | some s =>
    if s ≠ "" then
      match pyInt? (pyStrip s) with
      | some n => { st with snowflake_clients := n }
      | none => st
    else st
  | none => st

/-- Relay-bootstrap rule: `Bootstrapped (\d+)%` on the last matching line. -/
def applyTor (out : Option String) (st : Stats) : Stats :=
  match out with
  | some s =>
    if s ≠ "" then
      match searchBootstrap s with
      | some n => { st with torbridge_bootstrap := n }
      | none => st
    else st
  | none => st

/-- `stats.get("cpu_cores") or 1`: a missing or zero core count becomes 1. -/
def coresOr1 (cpu_cores : Option ℕ) : ℕ :=
  match cpu_cores with
  | some c => if c = 0 then 1 else c
  | none => 1

/-- CPU half of the resource-usage rule (whole branch in try/except): strip
`%`, parse, divide by `stats.get("cpu_cores") or 1`, clamp below at 0. -/
def cpuFromParts (p0 : String) (cpu_cores : Option ℕ) (cur : ℚ) : ℚ :=
  match pyFloat? (pyReplace p0 "%" "") with
  | none => cur
  | some raw_cpu =>
    let v := raw_cpu / (coresOr1 cpu_cores : ℚ)
    if v < 0 then 0 else v

def memUnits : List String := ["KiB", "MiB", "GiB", "KB", "MB", "GB"]

/-- Convert a memory quantity to MB: Ki/K divide by 1024, Gi/G multiply,
Mi/M pass through. -/
def memConvMb (v : ℚ) (unit : String) : ℚ :=
  if unit = "KiB" ∨ unit = "KB" then v / 1024
  else if unit = "GiB" ∨ unit = "GB" then v * 1024
  else v

/-- Memory half of the resource-usage rule: on a `([\d.]+)\s*(unit)` match,
convert to MB (`round(..., 1)` for display); only when the cached total is
positive compute a percentage clamped to [0,100].  An unparseable matched
quantity raises (`none`). -/
def memFromPart (p1 : String) (memory_total_mb : Option ℚ) (cur_mb cur_pct : ℚ) :
    Option (ℚ × ℚ) :=
  match searchNumUnit "" memUnits p1 with
  | none => some (cur_mb, cur_pct)
  | some (cap, unit) =>
    match parseDec? cap with
    | none => none
    | some v =>
      let used_mb := memConvMb v unit
      let total_mb := memory_total_mb.getD 0
      if total_mb > 0 then
        let pct0 := used_mb / total_mb * 100
        let pct1 := if pct0 < 0 then 0 else pct0
        let pct2 := if pct1 > 100 then 100 else pct1
        some (pyRound1 used_mb, pct2)
      else
        some (pyRound1 used_mb, cur_pct)

/-- `if docker_stats:` then `split("|")`, needing at least two parts. -/
def applyResource (out : Option String) (st : Stats) : Option Stats :=
  match out with
  | some s =>
    if s ≠ "" then
      match splitOnCharL '|' s.data with
      | p0 :: p1 :: _ =>
        let cpu := cpuFromParts ⟨p0⟩ st.cpu_cores st.cpu_percent
        match memFromPart ⟨p1⟩ st.memory_total_mb st.memory_mb st.memory_percent with
        | none => none
        | some mp =>
          some { st with cpu_percent := cpu, memory_mb := mp.1, memory_percent := mp.2 }
      | _ => some st
    else some st
  | none => some st

/-! ## Host Prober (`get_vps_stats`) -/

def uptimeCmd : String :=
  "uptime -p 2>/dev/null || uptime | awk \x27\x7bprint $3,$4\x7d\x27"

def psArgs : String :=
  "ps -a --format \x27\x7b\x7b.Names\x7d\x7d|\x7b\x7b.Status\x7d\x7d\x27 2>/dev/null"

def logs1Args : String := "logs conduit 2>&1 | grep \x27\\[STATS\\]\x27 | tail -1"

def logs2Args : String := "logs conduit2 2>&1 | grep \x27\\[STATS\\]\x27 | tail -1"

def sfArgs : String :=
  "logs snowflake 2>&1 | grep -c \x27client connected\x27 2>/dev/null || echo 0"

def torArgs : String := "logs tor-bridge 2>&1 | grep -i \x27bootstrap\x27 | tail -1"

def dstatsArgs : String :=
  "stats conduit --no-stream --format \x27\x7b\x7b.CPUPerc\x7d\x7d|\x7b\x7b.MemUsage\x7d\x7d\x27 2>/dev/null"

/-- The two module-level caches. -/
structure Caches where
  hw : List (String × ℕ × ℚ)
  pfx : List (String × String)
deriving DecidableEq

/-- `get_vps_stats(vps)`: liveness probe first — on the failure sentinel
return the defaults immediately; otherwise hardware facts, one container-
status listing, per-running-service log queries, and the resource-usage
call.  Returns `none` in place of an uncaught `ValueError`, together with
the updated caches and the list of executed commands. -/
def get_vps_stats (w : World) (σ : Caches) (vps : Vps) :
    Option Stats × Caches × List String :=
  let st0 := initStats vps
  let up := ssh_command w vps uptimeCmd
  match up.1 with
  | none => (some st0, σ, up.2)
  | some u =>
    let st1 := { st0 with online := true, uptime := pyReplace u "up " "" }
    let hwr := get_vps_hardware w σ.hw vps
    let st2 := { st1 with cpu_cores := some hwr.1.1, memory_total_mb := some hwr.1.2 }
    let ps := docker_command w σ.pfx vps psArgs
    let st3 := applyContainers ps.1 st2
    let l1 :=
      if st3.conduit_running then docker_command w ps.2.1 vps logs1Args
      else (none, ps.2.1, [])
    match applyTunnel1 l1.1 st3 with
    | none => (none, ⟨hwr.2.1, l1.2.1⟩, up.2 ++ hwr.2.2 ++ ps.2.2 ++ l1.2.2)
    | some st4 =>
      let l2 :=
        if st4.conduit2_running then docker_command w l1.2.1 vps logs2Args
        else (none, l1.2.1, [])
      match applyTunnel2 l2.1 st4 with
      | none =>
        (none, ⟨hwr.2.1, l2.2.1⟩, up.2 ++ hwr.2.2 ++ ps.2.2 ++ l1.2.2 ++ l2.2.2)
      | some st5 =>
        let sf :=
          if st5.snowflake_running then docker_command w l2.2.1 vps sfArgs
          else (none, l2.2.1, [])
        let st6 := applySnowflake sf.1 st5
        let tor :=
          if st6.torbridge_running then docker_command w sf.2.1 vps torArgs
          else (none, sf.2.1, [])
        let st7 := applyTor tor.1 st6
        let ds := docker_command w tor.2.1 vps dstatsArgs
        match applyResource ds.1 st7 with
        | none =>
          (none, ⟨hwr.2.1, ds.2.1⟩,
           up.2 ++ hwr.2.2 ++ ps.2.2 ++ l1.2.2 ++ l2.2.2 ++ sf.2.2 ++ tor.2.2 ++ ds.2.2)
        | some st8 =>
          (some st8, ⟨hwr.2.1, ds.2.1⟩,
           up.2 ++ hwr.2.2 ++ ps.2.2 ++ l1.2.2 ++ l2.2.2 ++ sf.2.2 ++ tor.2.2 ++ ds.2.2)

/-! ## Fleet Collection Orchestrator (`collect_stats`, aggregation part) -/

/-- One entry of the flattened `conduits` list. -/
structure Conduit where
  name : String
  vps : String
  «instance» : ℕ
  connections : ℕ
  connecting : ℕ
  up_gb : ℚ
  down_gb : ℚ
deriving DecidableEq

/-- The `current_stats` aggregate (`{"vps": ..., "timestamp": ..., "conduits": ...}`). -/
structure Fleet where
  vps : List Stats
  timestamp : String
  conduits : List Conduit
deriving DecidableEq

/-- `all_stats.sort(key=lambda x: x["alias"])` comparison. -/
def statAliasLe (a b : Stats) : Bool := pyStrLe a.«alias» b.«alias»

/-- The `conduits_list` loop: one entry per running conduit instance, in
sorted host order. -/
def buildConduits (sorted : List Stats) : List Conduit :=
  (sorted.map (fun s =>
    (if s.conduit_running then
      [{ name := s.«alias» ++ "-c1", vps := s.«alias», «instance» := 1,
         connections := s.connections, connecting := s.connecting,
         up_gb := s.conduit_up_gb, down_gb := s.conduit_down_gb }]
     else []) ++
    (if s.conduit2_running then
      [{ name := s.«alias» ++ "-c2", vps := s.«alias», «instance» := 2,
         connections := s.connections2, connecting := s.connecting2,
         up_gb := s.conduit2_up_gb, down_gb := s.conduit2_down_gb }]
     else []))).flatten

/-- Aggregation part of `collect_stats`: the probe results arrive in an
arbitrary completion order (`as_completed`), are sorted by alias, and the
flattened conduit list is built from the sorted list. -/
def collect_core (arrival : List Stats) (ts : String) : Fleet :=
  let sorted := arrival.mergeSort statAliasLe
  { vps := sorted, timestamp := ts, conduits := buildConduits sorted }

/-! ## Time-Series History Store -/

/-- One record of `history["data"]`. -/
structure HistoryPoint where
  time : String
  connections : List (String × ℕ)
deriving DecidableEq

/-- The persisted history object. -/
structure History where
  data : List HistoryPoint
  vps_names : List String
deriving DecidableEq

/-- `cleanup_old_history`: keep records with `d["time"] >= cutoff_str`
(Python string comparison; the cutoff string is
`(datetime.now() - timedelta(days=HISTORY_DAYS)).strftime("%Y-%m-%d %H:%M:%S")`,
passed here as a value). -/
def cleanup_old_history (cutoffStr : String) (h : History) : History :=
  { h with data := h.data.filter (fun d => pyStrLe cutoffStr d.time) }

/-- `connections_data`: `{alias}-c1` and `{alias}-c2` counts per host. -/
def connectionsData (allStats : List Stats) : List (String × ℕ) :=
  (allStats.map (fun s =>
    [(s.«alias» ++ "-c1", s.connections), (s.«alias» ++ "-c2", s.connections2)])).flatten

/-- History part of `collect_stats`: load, prune, append this cycle's point,
rebuild `vps_names`, save.  `full_timestamp` is `now.strftime("%Y-%m-%d %H:%M:%S")`. -/
def historyWrite (loaded : History) (cutoffStr full_timestamp : String)
    (allStats : List Stats) : History :=
  let h := cleanup_old_history cutoffStr loaded
  { data := h.data ++ [{ time := full_timestamp, connections := connectionsData allStats }],
    vps_names := allStats.map (fun s => s.«alias» ++ "-c1") ++
      allStats.map (fun s => s.«alias» ++ "-c2") }

/-! ## Interleaving model of two concurrent `get_docker_prefix` calls

The code takes the lock, checks the cache and releases; runs the probe
cascade with no lock held; then takes the lock again to insert.  Each thread
is therefore three atomic steps: `idle → (done | ready)` (guarded lookup),
`ready → probed` (unguarded probe cascade, counted), `probed → done`
(guarded insert). -/

inductive TPc where
  | idle
  | ready
  | probed (v : String)
  | done (r : String)
deriving DecidableEq

structure Sys where
  cache : List (String × String)
  probeRuns : ℕ
  pc0 : TPc
  pc1 : TPc
deriving DecidableEq

def setPc (t : Bool) (s : Sys) (pc : TPc) : Sys :=
  if t then { s with pc1 := pc } else { s with pc0 := pc }

/-- One atomic step of thread `t` (`false` = first caller). -/
def tstep (w : World) (vps : Vps) (s : Sys) (t : Bool) : Sys :=
  match (if t then s.pc1 else s.pc0) with
  | .idle =>
    match s.cache.lookup (vpsKey vps) with
    | some v => setPc t s (.done v)
    | none => setPc t s .ready
  | .ready => setPc t { s with probeRuns := s.probeRuns + 1 } (.probed (discoverPfx w vps).1)
  | .probed v => setPc t { s with cache := (vpsKey vps, v) :: s.cache } (.done v)
  | .done _ => s

/-- Both callers start before either has resolved, with an empty cache. -/
def sysInit : Sys := { cache := [], probeRuns := 0, pc0 := .idle, pc1 := .idle }

/-- Run a schedule (the sequence of thread ids granted a step). -/
def trun (w : World) (vps : Vps) (sched : List Bool) : Sys :=
  sched.foldl (tstep w vps) sysInit

/-- A sample target (password `-`: no usable credential). -/
def sampleVps : Vps :=
  { «alias» := "vps1", user := "root", ip := "10.0.0.1", port := "22",
    password := "-", comment := "test box" }

/-- A second sample target whose alias sorts before `sampleVps`'s. -/
def sampleVps2 : Vps :=
  { «alias» := "avps", user := "admin", ip := "10.0.0.2", port := "2222",
    password := "hunter2", comment := "" }

/-! ## Lemmas about the Python string order -/

theorem lexLe_refl (as : List Char) : lexLe as as = true := by
  induction as with
  | nil => rfl
  | cons a as ih => simp [lexLe, ih]

theorem lexLe_total (as bs : List Char) : (lexLe as bs || lexLe bs as) = true := by
  induction as generalizing bs with
  | nil => simp [lexLe]
  | cons a as ih =>
    cases bs with
    | nil => simp [lexLe]
    | cons b bs =>
      simp only [lexLe]
      split_ifs with h1 h2 h3 h4 h5 h6 <;> simp_all <;> omega

theorem lexLe_trans (as bs cs : List Char) (h1 : lexLe as bs = true)
    (h2 : lexLe bs cs = true) : lexLe as cs = true := by
  induction as generalizing bs cs with
  | nil => simp [lexLe]
  | cons a as ih =>
    cases bs with
    | nil => simp [lexLe] at h1
    | cons b bs =>
      cases cs with
      | nil => simp [lexLe] at h2
      | cons c cs =>
        simp only [lexLe] at h1 h2 ⊢
        split_ifs at h1 h2 ⊢ <;>
          first
            | rfl
            | omega
            | (exact ih bs cs h1 h2)
            | simp_all

theorem statAliasLe_total (a b : Stats) : (statAliasLe a b || statAliasLe b a) = true :=
  lexLe_total _ _

theorem statAliasLe_trans (a b c : Stats) (h1 : statAliasLe a b = true)
    (h2 : statAliasLe b c = true) : statAliasLe a c = true :=
  lexLe_trans _ _ _ h1 h2

/-! ## Alias preservation through the prober -/

theorem applyContainerLine_alias (st : Stats) (line : String) :
    (applyContainerLine st line).«alias» = st.«alias» := by
  unfold applyContainerLine
  split
  · rfl
  · dsimp only
    split_ifs <;> rfl

theorem foldl_applyContainerLine_alias (lines : List String) (st : Stats) :
    (lines.foldl applyContainerLine st).«alias» = st.«alias» := by
  induction lines generalizing st with
  | nil => rfl
  | cons l ls ih => simp [List.foldl, ih, applyContainerLine_alias]

theorem applyContainers_alias (info : Option String) (st : Stats) :
    (applyContainers info st).«alias» = st.«alias» := by
  unfold applyContainers
  (repeat' split) <;> first | rfl | apply foldl_applyContainerLine_alias

theorem applyTunnel1_alias (l : Option String) (st st' : Stats)
    (h : applyTunnel1 l st = some st') : st'.«alias» = st.«alias» := by
  unfold applyTunnel1 at h
  (repeat' split at h) <;>
    first
      | (injection h with h; subst h; rfl)
      | exact Option.noConfusion h

theorem applyTunnel2_alias (l : Option String) (st st' : Stats)
    (h : applyTunnel2 l st = some st') : st'.«alias» = st.«alias» := by
  unfold applyTunnel2 at h
  (repeat' split at h) <;>
    first
      | (injection h with h; subst h; rfl)
      | exact Option.noConfusion h

theorem applySnowflake_alias (out : Option String) (st : Stats) :
    (applySnowflake out st).«alias» = st.«alias» := by
  unfold applySnowflake
  (repeat' split) <;> rfl

theorem applyTor_alias (out : Option String) (st : Stats) :
    (applyTor out st).«alias» = st.«alias» := by
  unfold applyTor
  (repeat' split) <;> rfl

theorem applyResource_alias (out : Option String) (st st' : Stats)
    (h : applyResource out st = some st') : st'.«alias» = st.«alias» := by
  unfold applyResource at h
  (repeat' split at h) <;>
    first
      | (injection h with h; subst h; rfl)
      | exact Option.noConfusion h

theorem get_vps_stats_alias (w : World) (σ : Caches) (vps : Vps) (s : Stats)
    (h : (get_vps_stats w σ vps).1 = some s) : s.«alias» = vps.«alias» := by
  simp only [get_vps_stats] at h
  split at h
  · have hs := Option.some.inj h
    subst hs
    rfl
  · split at h
    · exact Option.noConfusion h
    · rename_i st4 hT1
      split at h
      · exact Option.noConfusion h
      · rename_i st5 hT2
        split at h
        · exact Option.noConfusion h
        · rename_i st8 hR
          have hs := Option.some.inj h
          subst hs
          rw [applyResource_alias _ _ _ hR, applyTor_alias, applySnowflake_alias,
            applyTunnel2_alias _ _ _ hT2, applyTunnel1_alias _ _ _ hT1]
          exact applyContainers_alias _ _

/-! ## Claim C1 -/

/-- C1: when the liveness probe (`uptime`) returns the failure sentinel,
`get_vps_stats` returns immediately the default snapshot — `online = false`,
all service-running flags false, numeric fields 0, text fields `"N/A"` — the
caches are untouched, and the liveness command is the only remote call
issued for that host. -/
theorem unreachable_host_defaults_and_short_circuit (w : World) (σ : Caches)
    (vps : Vps) (h : (ssh_command w vps uptimeCmd).1 = none) :
    get_vps_stats w σ vps = (some (initStats vps), σ, [buildSshCmd vps uptimeCmd]) ∧
    (initStats vps).online = false ∧
    (initStats vps).conduit_running = false ∧
    (initStats vps).conduit2_running = false ∧
    (initStats vps).snowflake_running = false ∧
    (initStats vps).torbridge_running = false ∧
    (initStats vps).connections = 0 ∧
    (initStats vps).connecting = 0 ∧
    (initStats vps).connections2 = 0 ∧
    (initStats vps).connecting2 = 0 ∧
    (initStats vps).conduit_up_gb = 0 ∧
    (initStats vps).conduit_down_gb = 0 ∧
    (initStats vps).conduit2_up_gb = 0 ∧
    (initStats vps).conduit2_down_gb = 0 ∧
    (initStats vps).snowflake_clients = 0 ∧
    (initStats vps).torbridge_bootstrap = 0 ∧
    (initStats vps).cpu_percent = 0 ∧
    (initStats vps).memory_mb = 0 ∧
    (initStats vps).memory_percent = 0 ∧
    (initStats vps).conduit_uptime = "N/A" ∧
    (initStats vps).conduit2_uptime = "N/A" ∧
    (initStats vps).snowflake_uptime = "N/A" ∧
    (initStats vps).torbridge_uptime = "N/A" ∧
    (initStats vps).conduit_up = "N/A" ∧
    (initStats vps).conduit_down = "N/A" ∧
    (initStats vps).conduit2_up = "N/A" ∧
    (initStats vps).conduit2_down = "N/A" ∧
    (initStats vps).uptime = "N/A" := by
  refine ⟨?_, rfl, rfl, rfl, rfl, rfl, rfl, rfl, rfl, rfl, rfl, rfl, rfl, rfl, rfl,
    rfl, rfl, rfl, rfl, rfl, rfl, rfl, rfl, rfl, rfl, rfl, rfl, rfl⟩
  simp only [get_vps_stats, h]
  rfl

/-- The world in which every remote invocation times out. -/
def wDown : World := fun _ => SubprocOutcome.timedOut

/-- Witness for C1 at a concrete target and a world where every call times
out. -/
theorem unreachable_host_defaults_witness :
    get_vps_stats wDown { hw := [], pfx := [] } sampleVps =
      (some (initStats sampleVps), { hw := [], pfx := [] },
       [buildSshCmd sampleVps uptimeCmd]) :=
  (unreachable_host_defaults_and_short_circuit wDown { hw := [], pfx := [] }
    sampleVps rfl).1

/-! ## Claim C2 -/

/-- A world where the command completes with a non-zero exit code and some
diagnostic text on stdout. -/
def wExitNonZero : World := fun _ => SubprocOutcome.completed 255 "error: cannot connect"

/-- C2 counterexample: on a completed run with non-zero exit code,
`ssh_command` does **not** return the failure sentinel — it returns the
stripped stdout as ordinary output (there is no exit-code check). -/
theorem ssh_command_nonzero_exit_counterexample :
    wExitNonZero (buildSshCmd sampleVps "uptime") =
      SubprocOutcome.completed 255 "error: cannot connect" ∧
    (ssh_command wExitNonZero sampleVps "uptime").1 = some "error: cannot connect" ∧
    (ssh_command wExitNonZero sampleVps "uptime").1 ≠ none := by
  refine ⟨rfl, by decide, by decide⟩

/-- C2 amended: `ssh_command` never raises (it is total into `Option`); the
single sentinel `none` is returned exactly when `subprocess.run` raised
(timeout or transport exception); a completed run returns its stripped
stdout whatever the exit code — non-zero exits are not collapsed to the
sentinel. -/
theorem ssh_command_failure_modes (w : World) (vps : Vps) (cmd : String) :
    ((ssh_command w vps cmd).1 = none ↔
      w (buildSshCmd vps cmd) = SubprocOutcome.timedOut ∨
        w (buildSshCmd vps cmd) = SubprocOutcome.raised) ∧
    (∀ ec out, w (buildSshCmd vps cmd) = SubprocOutcome.completed ec out →
      (ssh_command w vps cmd).1 = some (pyStrip out)) := by
  cases hw : w (buildSshCmd vps cmd) <;> simp [ssh_command, hw]

/-- Witness for C2 (amended): in the all-timeouts world the sentinel comes
back. -/
theorem ssh_command_failure_modes_witness :
    (ssh_command wDown sampleVps "uptime").1 = none :=
  (ssh_command_failure_modes wDown sampleVps "uptime").1.mpr (Or.inl rfl)

/-! ## Claim C6 -/

/-- C6: after a write cycle every retained point's timestamp is `>=` the
cutoff string (so no point is strictly older than the cutoff), a point whose
timestamp equals the cutoff exactly is retained (the comparison is
inclusive), and the newly appended point of the cycle is present.  The
hypothesis `cutoff <= ts` holds by construction in the code, where the
cutoff is `now - timedelta(days=2)` and `ts` is `now`, both rendered
`"%Y-%m-%d %H:%M:%S"`. -/
theorem history_retention (loaded : History) (cutoff ts : String)
    (allStats : List Stats) (hts : pyStrLe cutoff ts = true) :
    (∀ p ∈ (historyWrite loaded cutoff ts allStats).data, pyStrLe cutoff p.time = true) ∧
    ({ time := ts, connections := connectionsData allStats } : HistoryPoint) ∈
      (historyWrite loaded cutoff ts allStats).data ∧
    (∀ p ∈ loaded.data, p.time = cutoff →
      p ∈ (historyWrite loaded cutoff ts allStats).data) ∧
    (∀ p ∈ loaded.data, pyStrLe cutoff p.time = true →
      p ∈ (historyWrite loaded cutoff ts allStats).data) := by
  refine ⟨?_, ?_, ?_, ?_⟩
  · intro p hp
    simp only [historyWrite, cleanup_old_history, List.mem_append, List.mem_filter,
      List.mem_singleton] at hp
    rcases hp with ⟨_, hkeep⟩ | rfl
    · exact hkeep
    · exact hts
  · simp [historyWrite]
  · intro p hp he
    simp only [historyWrite, cleanup_old_history, List.mem_append, List.mem_filter]
    exact Or.inl ⟨hp, by rw [he]; exact lexLe_refl _⟩
  · intro p hp hk
    simp only [historyWrite, cleanup_old_history, List.mem_append, List.mem_filter]
    exact Or.inl ⟨hp, hk⟩

/-- Witness for C6 at concrete timestamps: a stale point is dropped, the
boundary point and the fresh point are kept. -/
theorem history_retention_witness :
    (∀ p ∈ (historyWrite
        { data := [{ time := "2026-10-09 00:00:00", connections := [] },
                   { time := "2026-10-10 12:00:00", connections := [] }],
          vps_names := [] } "2026-10-10 12:00:00" "2026-10-12 12:00:00" []).data,
      pyStrLe "2026-10-10 12:00:00" p.time = true) ∧
    ({ time := "2026-10-10 12:00:00", connections := [] } : HistoryPoint) ∈
      (historyWrite
        { data := [{ time := "2026-10-09 00:00:00", connections := [] },
                   { time := "2026-10-10 12:00:00", connections := [] }],
          vps_names := [] } "2026-10-10 12:00:00" "2026-10-12 12:00:00" []).data := by
  have h := history_retention
    { data := [{ time := "2026-10-09 00:00:00", connections := [] },
               { time := "2026-10-10 12:00:00", connections := [] }],
      vps_names := [] } "2026-10-10 12:00:00" "2026-10-12 12:00:00" [] (by decide)
  exact ⟨h.1, h.2.2.1 _ (by simp) rfl⟩

/-! ## Claim C4 -/

/-- C4: the resolver consults the per-identity cache first (and then issues
no remote call); on a miss it probes plain docker, then `sudo -n`, then —
only when the password is present and not `"-"` — the password-piped probe,
stopping at the first success; if every attempted probe fails the resolved
prefix is `""` (Direct); the result is stored under `user@ip:port` and every
later call (under any world) returns the cached value. -/
theorem docker_prefix_resolution (w : World) (cache : List (String × String))
    (vps : Vps) :
    (cache.lookup (vpsKey vps) = none →
      get_docker_prefix w cache vps =
        ((discoverPfx w vps).1,
         (vpsKey vps, (discoverPfx w vps).1) :: cache, (discoverPfx w vps).2)) ∧
    (probeOk (ssh_command w vps probeCmd1).1 = true →
      discoverPfx w vps = ("", [buildSshCmd vps probeCmd1])) ∧
    (probeOk (ssh_command w vps probeCmd1).1 = false →
     probeOk (ssh_command w vps probeCmd2).1 = true →
      discoverPfx w vps =
        ("sudo -n ", [buildSshCmd vps probeCmd1, buildSshCmd vps probeCmd2])) ∧
    (probeOk (ssh_command w vps probeCmd1).1 = false →
     probeOk (ssh_command w vps probeCmd2).1 = false → ¬ usablePassword vps →
      discoverPfx w vps =
        ("", [buildSshCmd vps probeCmd1, buildSshCmd vps probeCmd2])) ∧
    (probeOk (ssh_command w vps probeCmd1).1 = false →
     probeOk (ssh_command w vps probeCmd2).1 = false → usablePassword vps →
     probeOk (ssh_command w vps (probeCmd3 (_sh_single_quote vps.password))).1 = true →
      discoverPfx w vps =
        ("echo " ++ _sh_single_quote vps.password ++ " | sudo -S -p \x27\x27 ",
         [buildSshCmd vps probeCmd1, buildSshCmd vps probeCmd2,
          buildSshCmd vps (probeCmd3 (_sh_single_quote vps.password))])) ∧
    (probeOk (ssh_command w vps probeCmd1).1 = false →
     probeOk (ssh_command w vps probeCmd2).1 = false → usablePassword vps →
     probeOk (ssh_command w vps (probeCmd3 (_sh_single_quote vps.password))).1 = false →
      discoverPfx w vps =
        ("", [buildSshCmd vps probeCmd1, buildSshCmd vps probeCmd2,
              buildSshCmd vps (probeCmd3 (_sh_single_quote vps.password))])) ∧
    (∀ (w2 : World) (c2 : List (String × String)) (p : String),
      c2.lookup (vpsKey vps) = some p → get_docker_prefix w2 c2 vps = (p, c2, [])) ∧
    (∀ d : String, ((vpsKey vps, d) :: cache).lookup (vpsKey vps) = some d) := by
  refine ⟨?_, ?_, ?_, ?_, ?_, ?_, ?_, ?_⟩
  · intro hn
    simp [ get_docker_prefix, hn]
  · intro h1
    simp only [discoverPfx, h1, if_true]
    rfl
  · intro h1 h2
    simp only [discoverPfx, h1, h2, Bool.false_eq_true, if_false, if_true]
    rfl
  · intro h1 h2 h3
    simp only [discoverPfx, h1, h2, Bool.false_eq_true, if_false, h3]
    rfl
  · intro h1 h2 h3 h4
    simp only [discoverPfx, h1, h2, Bool.false_eq_true, if_false, h3, if_true, h4]
    rfl
  · intro h1 h2 h3 h4
    simp only [discoverPfx, h1, h2, h4, Bool.false_eq_true, if_false, h3, if_true]
    rfl
  · intro w2 c2 p hp
    simp [ get_docker_prefix, hp]
  · intro d
    simp [List.lookup]

/-- Witness for C4: with an empty cache and every probe failing, the
resolver falls back to the Direct (empty) prefix after exactly the two
attempted probes (no password on `sampleVps`), and a pre-populated cache is
returned untouched with no remote call. -/
theorem docker_prefix_resolution_witness :
    get_docker_prefix wDown [] sampleVps =
      ("", [(vpsKey sampleVps, "")],
       [buildSshCmd sampleVps probeCmd1, buildSshCmd sampleVps probeCmd2]) ∧
    get_docker_prefix wDown [(vpsKey sampleVps, "sudo -n ")] sampleVps =
      ("sudo -n ", [(vpsKey sampleVps, "sudo -n ")], []) := by
  have h := docker_prefix_resolution wDown [] sampleVps
  have hd : discoverPfx wDown sampleVps =
      ("", [buildSshCmd sampleVps probeCmd1, buildSshCmd sampleVps probeCmd2]) :=
    h.2.2.2.1 rfl rfl (by decide)
  refine ⟨?_, ?_⟩
  · rw [h.1 rfl, hd]
  · exact h.2.2.2.2.2.2.1 wDown _ _ (by decide)

/-! ## Claim C9 -/

/-- C9 counterexample: with both first-time callers interleaved
(lookup / lookup / probe / probe / insert / insert), the discovery probe
sequence runs twice — the lookup and the insert are two separate critical
sections, so the second caller does not observe the first caller's result. -/
theorem resolver_concurrent_double_probe_counterexample :
    (trun wDown sampleVps [false, true, false, true, false, true]).probeRuns = 2 ∧
    ¬ (trun wDown sampleVps [false, true, false, true, false, true]).probeRuns ≤ 1 := by
  exact ⟨by decide, by decide⟩

/-- How many times a thread in this state has run the probe cascade. -/
def pcCount : TPc → ℕ
  | .idle => 0
  | .ready => 0
  | .probed _ => 1
  | .done _ => 1

theorem tstep_probeRuns_inv (w : World) (vps : Vps) (s : Sys) (t : Bool)
    (h : s.probeRuns ≤ pcCount s.pc0 + pcCount s.pc1) :
    (tstep w vps s t).probeRuns ≤
      pcCount (tstep w vps s t).pc0 + pcCount (tstep w vps s t).pc1 := by
  obtain ⟨c, n, p0, p1⟩ := s
  cases t <;> cases p0 <;> cases p1 <;>
    simp only [tstep, setPc] <;> (repeat' split) <;> simp_all [pcCount] <;> omega

theorem foldl_probeRuns_inv (w : World) (vps : Vps) (sched : List Bool) (s : Sys)
    (h : s.probeRuns ≤ pcCount s.pc0 + pcCount s.pc1) :
    (sched.foldl (tstep w vps) s).probeRuns ≤
      pcCount (sched.foldl (tstep w vps) s).pc0 +
        pcCount (sched.foldl (tstep w vps) s).pc1 := by
  induction sched generalizing s with
  | nil => exact h
  | cons t ts ih => exact ih _ (tstep_probeRuns_inv w vps s t h)

theorem pcCount_le_one (pc : TPc) : pcCount pc ≤ 1 := by
  cases pc <;> simp [pcCount]

theorem foldl_after_complete (w : World) (vps : Vps) (rest : List Bool) (s : Sys)
    (v : String) (hc : s.cache = [(vpsKey vps, v)]) (hr : s.probeRuns = 1)
    (h0 : s.pc0 = TPc.done v) (h1 : s.pc1 = TPc.idle ∨ s.pc1 = TPc.done v) :
    (rest.foldl (tstep w vps) s).probeRuns = 1 := by
  induction rest generalizing s with
  | nil => exact hr
  | cons t ts ih =>
    cases t with
    | false =>
      have hstep : tstep w vps s false = s := by
        simp [tstep, h0]
      rw [List.foldl_cons, hstep]
      exact ih s hc hr h0 h1
    | true =>
      rcases h1 with h1 | h1
      · have hstep : tstep w vps s true = setPc true s (.done v) := by
          simp [tstep, h1, hc, List.lookup]
        rw [List.foldl_cons, hstep]
        exact ih _ hc hr h0 (Or.inr rfl)
      · have hstep : tstep w vps s true = s := by
          simp [tstep, h1]
        rw [List.foldl_cons, hstep]
        exact ih s hc hr h0 (Or.inr h1)

/-- C9 amended: the lookup and insert are individually guarded but the probe
cascade between them is not, so with two concurrent first-time callers the
cascade runs at most once **per caller** (at most twice overall, as the
counterexample shows it can); and a caller whose guarded lookup happens
after another caller's completed insert observes the cached value and runs
no probes (any schedule that first lets one caller finish keeps the probe
count at 1). -/
theorem resolver_probe_bound_and_cache_hit (w : World) (vps : Vps) :
    (∀ sched : List Bool, (trun w vps sched).probeRuns ≤ 2) ∧
    (∀ rest : List Bool,
      (trun w vps ([false, false, false] ++ rest)).probeRuns = 1) := by
  constructor
  · intro sched
    have h := foldl_probeRuns_inv w vps sched sysInit (by simp [sysInit, pcCount])
    have h0 := pcCount_le_one (sched.foldl (tstep w vps) sysInit).pc0
    have h1 := pcCount_le_one (sched.foldl (tstep w vps) sysInit).pc1
    have : (trun w vps sched).probeRuns =
        (sched.foldl (tstep w vps) sysInit).probeRuns := rfl
    omega
  · intro rest
    have hpre : List.foldl (tstep w vps) sysInit [false, false, false] =
        { cache := [(vpsKey vps, (discoverPfx w vps).1)], probeRuns := 1,
          pc0 := TPc.done (discoverPfx w vps).1, pc1 := TPc.idle } := rfl
    have : trun w vps ([false, false, false] ++ rest) =
        rest.foldl (tstep w vps) (List.foldl (tstep w vps) sysInit [false, false, false]) := by
      simp [trun, List.foldl_append]
    rw [this, hpre]
    exact foldl_after_complete w vps rest _ _ rfl rfl rfl (Or.inl rfl)

/-- Witness for C9 (amended theorem) at a concrete world and schedule. -/
theorem resolver_probe_bound_witness :
    (trun wDown sampleVps [true, false, true, false]).probeRuns ≤ 2 ∧
    (trun wDown sampleVps ([false, false, false] ++ [true, true])).probeRuns = 1 :=
  ⟨(resolver_probe_bound_and_cache_hit wDown sampleVps).1 _,
   (resolver_probe_bound_and_cache_hit wDown sampleVps).2 _⟩


/-! ## Claim C7 -/

theorem coresOr1_pos (c : Option ℕ) : 0 < coresOr1 c := by
  cases c with
  | none => simp [coresOr1]
  | some n => simp only [coresOr1]; split <;> omega

theorem halfEven_intCast (n : ℤ) : halfEven (n : ℚ) = n := by
  simp only [halfEven, Int.floor_intCast, sub_self]
  norm_num

theorem cpu_parse_250 : pyFloat? (pyReplace "250.00%" "%" "") = some 250 := by
  have h1 : pyReplace "250.00%" "%" "" = "250.00" := by decide
  have h2 : parseDecParts? "250.00".data = some (250, 0, 2) := by decide
  have h3 : stripL "250.00".data = "250.00".data := by decide
  rw [h1]
  simp only [pyFloat?, h3]
  rw [if_neg (by decide), if_neg (by decide)]
  simp only [parseDec?, h2, Option.map]
  norm_num [decVal]

/-- C7: the resource-usage rule divides the raw container CPU percentage by
the cached core count (`or 1`), clamps the result below at 0, and applies no
upper clamp: raw `250.00%` on 4 cores gives 62.5, and with the defaulted
single core it stays 250.0; an unparseable CPU field leaves the current
value (try/except). -/
theorem cpu_normalization (p0 : String) (cpu_cores : Option ℕ) (cur : ℚ) :
    cpuFromParts "250.00%" (some 4) cur = 125 / 2 ∧
    cpuFromParts "250.00%" (some 1) cur = 250 ∧
    (∀ raw : ℚ, pyFloat? (pyReplace p0 "%" "") = some raw →
      (0 ≤ raw → cpuFromParts p0 cpu_cores cur = raw / (coresOr1 cpu_cores : ℚ)) ∧
      (raw < 0 → cpuFromParts p0 cpu_cores cur = 0)) ∧
    (pyFloat? (pyReplace p0 "%" "") = none → cpuFromParts p0 cpu_cores cur = cur) := by
  refine ⟨?_, ?_, ?_, ?_⟩
  · simp only [cpuFromParts, cpu_parse_250]
    rw [show coresOr1 (some 4) = 4 by decide]
    norm_num
  · simp only [cpuFromParts, cpu_parse_250]
    rw [show coresOr1 (some 1) = 1 by decide]
    norm_num
  · intro raw hr
    have hpos : (0 : ℚ) < (coresOr1 cpu_cores : ℚ) := by
      exact_mod_cast coresOr1_pos cpu_cores
    constructor
    · intro h0
      simp only [cpuFromParts, hr]
      rw [if_neg (not_lt.mpr (div_nonneg h0 (le_of_lt hpos)))]
    · intro hneg
      simp only [cpuFromParts, hr]
      rw [if_pos (div_neg_of_neg_of_pos hneg hpos)]
  · intro hn
    simp only [cpuFromParts, hn]

/-- Witness for C7: both concrete normalizations, picked out of the theorem. -/
theorem cpu_normalization_witness :
    cpuFromParts "250.00%" (some 4) 0 = 125 / 2 ∧
    cpuFromParts "250.00%" (some 1) 0 = 250 :=
  ⟨(cpu_normalization "250.00%" (some 4) 0).1, (cpu_normalization "250.00%" (some 1) 0).2.1⟩

/-! ## Claim C8 -/

theorem strEta (s : String) : (⟨s.data⟩ : String) = s := rfl

theorem mem_parse_238 : parseDec? ['2', '3', '8'] = some 238 := by
  have h2 : parseDecParts? ['2', '3', '8'] = some (238, 0, 0) := by decide
  simp only [parseDec?, h2, Option.map]
  norm_num [decVal]

theorem pyRound1_238 : pyRound1 238 = 238 := by
  have h : ((238 : ℚ) * 10) = ((2380 : ℤ) : ℚ) := by norm_num
  rw [pyRound1, h, halfEven_intCast]
  norm_num

/-- C8: the memory branch is division-safe when total memory is unknown:
`238MiB` used with total 0 gives `memory_mb = 238` and leaves
`memory_percent` at its current value 0, taking the no-division branch; and
whenever the total is positive, the computed percentage is clamped to
[0, 100]. -/
theorem memory_rule_safe (p1 : String) (total : Option ℚ) (cur_mb cur_pct : ℚ) :
    memFromPart "238MiB / 7.57GiB" (some 0) 0 0 = some (238, 0) ∧
    (∀ cap unit v, searchNumUnit "" memUnits p1 = some (cap, unit) →
      parseDec? cap = some v → total.getD 0 > 0 →
      ∃ pct, memFromPart p1 total cur_mb cur_pct =
          some (pyRound1 (memConvMb v unit), pct) ∧ 0 ≤ pct ∧ pct ≤ 100) := by
  constructor
  · have hs : searchNumUnit "" memUnits "238MiB / 7.57GiB" =
        some (['2', '3', '8'], "MiB") := by decide
    have hconv : memConvMb 238 "MiB" = 238 := by
      rw [memConvMb, if_neg (by decide), if_neg (by decide)]
    simp only [memFromPart, hs, mem_parse_238, hconv, Option.getD_some]
    rw [if_neg (by norm_num), pyRound1_238]
  · intro cap unit v hs hv ht
    simp only [memFromPart, hs, hv]
    rw [if_pos ht]
    refine ⟨_, rfl, ?_, ?_⟩ <;> split_ifs <;> linarith

/-- Witness for C8: the division-free branch, picked out of the theorem. -/
theorem memory_rule_safe_witness :
    memFromPart "238MiB / 7.57GiB" (some 0) 0 0 = some (238, 0) :=
  (memory_rule_safe "" none 0 0).1

/-! ## Claim C10 -/

/-- C10: a container-status text that starts with `"Up"` but on which the
duration pattern `Up\s+(.+?)(?:\s+\(|$)` has no match (e.g. exactly `"Up"`)
still marks the service running while the uptime label keeps its `"N/A"`
default: the running flag (a `startswith` test) and the uptime extraction
(a regex search) are independent and can disagree. -/
theorem status_up_without_duration (st : Stats) (status : String)
    (h1 : startsWithL "Up".data status.data = true) (h2 : upDurSearch status = none) :
    statusFields status = (true, "N/A") ∧
    applyContainerLine st ("conduit|" ++ status) =
      { st with conduit_running := true, conduit_uptime := "N/A" } := by
  have hsf : statusFields status = (true, "N/A") := by
    simp [statusFields, h1, h2]
  refine ⟨hsf, ?_⟩
  have hdata : ("conduit|" ++ status).data = "conduit|".data ++ status.data := by
    simp [String.data_append]
  have hsplit : splitFirstL '|' ("conduit|" ++ status).data =
      some ("conduit".data, status.data) := by
    rw [hdata]
    simp [splitFirstL]
  simp only [applyContainerLine, hsplit, strEta]
  simp [hsf]

/-- Witness for C10 at the status text `"Up"`. -/
theorem status_up_without_duration_witness :
    statusFields "Up" = (true, "N/A") ∧
    applyContainerLine (initStats sampleVps) "conduit|Up" =
      { initStats sampleVps with conduit_running := true, conduit_uptime := "N/A" } :=
  status_up_without_duration (initStats sampleVps) "Up" (by decide) (by decide)


/-! ## Claim C5 -/

/-- The synthetic line of the spec's round-trip property. -/
def statsLineExample : String :=
  "[STATS] Connecting: 17 | Connected: 226 | Up: 7.1 GB | Down: 74.1 GB"

/-- A line on which the `Down:` pattern matches cleanly but the matched
`Up:` quantity capture `1.2.3` is not a valid decimal, so `float` raises. -/
def badStatsLine : String := "[STATS] Connecting: 3 | Up: 1.2.3 GB | Down: 5 GB"

/-- C5 counterexample: on `badStatsLine` the whole extraction aborts with an
uncaught `ValueError` (`none`), even though the `Down:` field has a clean
match (`5 GB`) and `Connecting:` matched — the four fields are not extracted
independently on every input line. -/
theorem tunnel_extraction_abort_counterexample :
    parseTunnelLine tunnelDefault badStatsLine = none ∧
    searchNumUnit "Down:" tunnelUnits badStatsLine = some (['5'], "GB") ∧
    searchLabeledNat "Connecting:" badStatsLine = some 3 ∧
    searchNumUnit "Up:" tunnelUnits badStatsLine = some (['1', '.', '2', '.', '3'], "GB") ∧
    parseDec? ['1', '.', '2', '.', '3'] = none := by
  refine ⟨by decide, by decide, by decide, by decide, by decide⟩

theorem dec_71 : parseDec? ['7', '.', '1'] = some (71 / 10) := by
  have h : parseDecParts? ['7', '.', '1'] = some (7, 1, 1) := by decide
  simp only [parseDec?, h, Option.map]
  norm_num [decVal]

theorem dec_741 : parseDec? ['7', '4', '.', '1'] = some (741 / 10) := by
  have h : parseDecParts? ['7', '4', '.', '1'] = some (74, 1, 1) := by decide
  simp only [parseDec?, h, Option.map]
  norm_num [decVal]

theorem fmt1_71 : fmt1 (71 / 10) = "7.1" := by
  have h : ((71 : ℚ) / 10) * 10 = ((71 : ℤ) : ℚ) := by norm_num
  simp only [fmt1, h, halfEven_intCast]
  decide

theorem fmt1_741 : fmt1 (741 / 10) = "74.1" := by
  have h : ((741 : ℚ) / 10) * 10 = ((741 : ℤ) : ℚ) := by norm_num
  simp only [fmt1, h, halfEven_intCast]
  decide

theorem tunnelConv_71GB : tunnelConv (71 / 10) "GB" = (71 / 10, "7.1 GB") := by
  rw [tunnelConv, if_neg (by decide), if_neg (by decide), fmt1_71]
  exact Prod.ext rfl (by decide)

theorem tunnelConv_741GB : tunnelConv (741 / 10) "GB" = (741 / 10, "74.1 GB") := by
  rw [tunnelConv, if_neg (by decide), if_neg (by decide), fmt1_741]
  exact Prod.ext rfl (by decide)

/-- The round-trip on the synthetic line, as a reusable fact. -/
theorem tunnel_round_trip_core :
    parseTunnelLine tunnelDefault statsLineExample =
      some { connecting := 17, connections := 226, up_disp := "7.1 GB",
             down_disp := "74.1 GB", up_gb := 71 / 10, down_gb := 741 / 10 } := by
  have h1 : searchLabeledNat "Connecting:" statsLineExample = some 17 := by decide
  have h2 : searchLabeledNat "Connected:" statsLineExample = some 226 := by decide
  have hu : searchNumUnit "Up:" tunnelUnits statsLineExample =
      some (['7', '.', '1'], "GB") := by decide
  have hd : searchNumUnit "Down:" tunnelUnits statsLineExample =
      some (['7', '4', '.', '1'], "GB") := by decide
  simp only [parseTunnelLine, h1, h2, hu, hd, dec_71, dec_741,
    tunnelConv_71GB, tunnelConv_741GB]

/-- C5 amended: the synthetic `[STATS]` line round-trips to
pending = 17, active = 226, displays `"7.1 GB"`/`"74.1 GB"` and 7.1/74.1 in
the GB base unit; and **whenever the rule completes without raising**, each
of the four fields is determined independently by its own pattern, a field
with no match keeping its previous (default) value.  (Unconditional
independence is false: a matched quantity whose capture is not a valid
decimal raises and aborts the whole extraction, see the counterexample.) -/
theorem tunnel_round_trip_and_independence (t : TunnelStats) (line : String)
    (r : TunnelStats) (h : parseTunnelLine t line = some r) :
    parseTunnelLine tunnelDefault statsLineExample =
      some { connecting := 17, connections := 226, up_disp := "7.1 GB",
             down_disp := "74.1 GB", up_gb := 71 / 10, down_gb := 741 / 10 } ∧
    r.connecting = (match searchLabeledNat "Connecting:" line with
                    | some n => n
                    | none => t.connecting) ∧
    r.connections = (match searchLabeledNat "Connected:" line with
                     | some n => n
                     | none => t.connections) ∧
    (searchNumUnit "Up:" tunnelUnits line = none →
      r.up_gb = t.up_gb ∧ r.up_disp = t.up_disp) ∧
    (∀ cap unit, searchNumUnit "Up:" tunnelUnits line = some (cap, unit) →
      ∃ v, parseDec? cap = some v ∧
        r.up_gb = (tunnelConv v unit).1 ∧ r.up_disp = (tunnelConv v unit).2) ∧
    (searchNumUnit "Down:" tunnelUnits line = none →
      r.down_gb = t.down_gb ∧ r.down_disp = t.down_disp) ∧
    (∀ cap unit, searchNumUnit "Down:" tunnelUnits line = some (cap, unit) →
      ∃ v, parseDec? cap = some v ∧
        r.down_gb = (tunnelConv v unit).1 ∧ r.down_disp = (tunnelConv v unit).2) := by
  refine ⟨tunnel_round_trip_core, ?_⟩
  simp only [parseTunnelLine] at h
  rcases hU : searchNumUnit "Up:" tunnelUnits line with _ | ⟨capU, uU⟩
  · simp only [hU] at h
    rcases hD : searchNumUnit "Down:" tunnelUnits line with _ | ⟨capD, uD⟩
    · simp only [hD] at h
      obtain rfl := Option.some.inj h
      refine ⟨?_, ?_, ?_, ?_, ?_, ?_⟩ <;>
          first
            | (cases searchLabeledNat "Connecting:" line <;>
               cases searchLabeledNat "Connected:" line <;> (simp; done))
            | (intro hx
               cases searchLabeledNat "Connecting:" line <;>
                 cases searchLabeledNat "Connected:" line <;> (simp; done))
            | (intro hx; exact Option.noConfusion hx)
            | (intro cap unit hx; exact Option.noConfusion hx)
            | (intro cap unit hx
               obtain ⟨rfl, rfl⟩ := Prod.mk.inj (Option.some.inj hx)
               first
                 | exact ⟨vU, hvU, by simp; done, by simp; done⟩
                 | exact ⟨vD, hvD, by simp; done, by simp; done⟩)
    · simp only [hD] at h
      rcases hvD : parseDec? capD with _ | vD
      · rw [hvD] at h
        exact Option.noConfusion h
      · simp only [hvD] at h
        obtain rfl := Option.some.inj h
        refine ⟨?_, ?_, ?_, ?_, ?_, ?_⟩ <;>
          first
            | (cases searchLabeledNat "Connecting:" line <;>
               cases searchLabeledNat "Connected:" line <;> (simp; done))
            | (intro hx
               cases searchLabeledNat "Connecting:" line <;>
                 cases searchLabeledNat "Connected:" line <;> (simp; done))
            | (intro hx; exact Option.noConfusion hx)
            | (intro cap unit hx; exact Option.noConfusion hx)
            | (intro cap unit hx
               obtain ⟨rfl, rfl⟩ := Prod.mk.inj (Option.some.inj hx)
               first
                 | exact ⟨vU, hvU, by simp; done, by simp; done⟩
                 | exact ⟨vD, hvD, by simp; done, by simp; done⟩)
  · simp only [hU] at h
    rcases hvU : parseDec? capU with _ | vU
    · rw [hvU] at h
      exact Option.noConfusion h
    · simp only [hvU] at h
      rcases hD : searchNumUnit "Down:" tunnelUnits line with _ | ⟨capD, uD⟩
      · simp only [hD] at h
        obtain rfl := Option.some.inj h
        refine ⟨?_, ?_, ?_, ?_, ?_, ?_⟩ <;>
          first
            | (cases searchLabeledNat "Connecting:" line <;>
               cases searchLabeledNat "Connected:" line <;> (simp; done))
            | (intro hx
               cases searchLabeledNat "Connecting:" line <;>
                 cases searchLabeledNat "Connected:" line <;> (simp; done))
            | (intro hx; exact Option.noConfusion hx)
            | (intro cap unit hx; exact Option.noConfusion hx)
            | (intro cap unit hx
               obtain ⟨rfl, rfl⟩ := Prod.mk.inj (Option.some.inj hx)
               first
                 | exact ⟨vU, hvU, by simp; done, by simp; done⟩
                 | exact ⟨vD, hvD, by simp; done, by simp; done⟩)
      · simp only [hD] at h
        rcases hvD : parseDec? capD with _ | vD
        · rw [hvD] at h
          exact Option.noConfusion h
        · simp only [hvD] at h
          obtain rfl := Option.some.inj h
          refine ⟨?_, ?_, ?_, ?_, ?_, ?_⟩ <;>
          first
            | (cases searchLabeledNat "Connecting:" line <;>
               cases searchLabeledNat "Connected:" line <;> (simp; done))
            | (intro hx
               cases searchLabeledNat "Connecting:" line <;>
                 cases searchLabeledNat "Connected:" line <;> (simp; done))
            | (intro hx; exact Option.noConfusion hx)
            | (intro cap unit hx; exact Option.noConfusion hx)
            | (intro cap unit hx
               obtain ⟨rfl, rfl⟩ := Prod.mk.inj (Option.some.inj hx)
               first
                 | exact ⟨vU, hvU, by simp; done, by simp; done⟩
                 | exact ⟨vD, hvD, by simp; done, by simp; done⟩)

/-- Witness for C5 (amended theorem): the synthetic round-trip line. -/
theorem tunnel_round_trip_witness :
    (parseTunnelLine tunnelDefault statsLineExample =
      some { connecting := 17, connections := 226, up_disp := "7.1 GB",
             down_disp := "74.1 GB", up_gb := 71 / 10, down_gb := 741 / 10 }) ∧
    ({ connecting := 17, connections := 226, up_disp := "7.1 GB",
       down_disp := "74.1 GB", up_gb := 71 / 10,
       down_gb := 741 / 10 } : TunnelStats).connecting =
      (match searchLabeledNat "Connecting:" statsLineExample with
       | some n => n
       | none => tunnelDefault.connecting) := by
  have h := tunnel_round_trip_and_independence tunnelDefault statsLineExample
    _ tunnel_round_trip_core
  exact ⟨h.1, h.2.1⟩


/-! ## Claim C3 -/

theorem results_alias_eq (w : World) (cs : Vps → Caches) :
    ∀ (targets : List Vps) (results : List Stats),
      targets.map (fun v => (get_vps_stats w (cs v) v).1) = results.map some →
      results.map (fun s => s.«alias») = targets.map (fun v => v.«alias») := by
  intro targets
  induction targets with
  | nil =>
    intro results h
    cases results with
    | nil => rfl
    | cons r rs => simp at h
  | cons t ts ih =>
    intro results h
    cases results with
    | nil => simp at h
    | cons r rs =>
      simp only [List.map_cons, List.cons.injEq] at h
      simp only [List.map_cons, List.cons.injEq]
      exact ⟨get_vps_stats_alias w (cs t) t r h.1, ih rs h.2⟩

/-- C3: after a completed cycle (every probe returned a snapshot), the
aggregate's `vps` list — whatever order the concurrent probes completed in —
is a permutation of the probe results, is sorted ascending by alias, has
exactly one entry per configured target, and its aliases are exactly the
targets' aliases.  (Each per-target cache state `cs v` is arbitrary, since
concurrent probes share the mutating caches.)  Every entry carries the full
field set by construction of the `Stats` record. -/
theorem collect_cycle_snapshots (w : World) (cs : Vps → Caches)
    (targets : List Vps) (results arrival : List Stats) (ts : String)
    (hres : targets.map (fun v => (get_vps_stats w (cs v) v).1) = results.map some)
    (hperm : arrival.Perm results) :
    (collect_core arrival ts).vps.Perm results ∧
    List.Pairwise (fun a b => statAliasLe a b = true) (collect_core arrival ts).vps ∧
    (collect_core arrival ts).vps.length = targets.length ∧
    ((collect_core arrival ts).vps.map (fun s => s.«alias»)).Perm
      (targets.map (fun v => v.«alias»)) := by
  have hp : (collect_core arrival ts).vps.Perm arrival :=
    List.mergeSort_perm arrival statAliasLe
  have hpr : (collect_core arrival ts).vps.Perm results := hp.trans hperm
  refine ⟨hpr, ?_, ?_, ?_⟩
  · exact List.sorted_mergeSort statAliasLe_trans statAliasLe_total arrival
  · rw [hpr.length_eq]
    have hlen := congrArg List.length hres
    simpa using hlen.symm
  · have h1 : results.map (fun s => s.«alias») = targets.map (fun v => v.«alias») :=
      results_alias_eq w cs targets results hres
    exact h1 ▸ hpr.map (fun s => s.«alias»)

/-- Witness for C3: two offline targets whose aliases arrive out of order. -/
theorem collect_cycle_snapshots_witness :
    (collect_core [initStats sampleVps, initStats sampleVps2] "12:00:00").vps.Perm
      [initStats sampleVps, initStats sampleVps2] ∧
    List.Pairwise (fun a b => statAliasLe a b = true)
      (collect_core [initStats sampleVps, initStats sampleVps2] "12:00:00").vps ∧
    (collect_core [initStats sampleVps, initStats sampleVps2] "12:00:00").vps.length = 2 ∧
    ((collect_core [initStats sampleVps, initStats sampleVps2] "12:00:00").vps.map
      (fun s => s.«alias»)).Perm ["vps1", "avps"] := by
  have h := collect_cycle_snapshots wDown (fun _ => { hw := [], pfx := [] })
    [sampleVps, sampleVps2]
    [initStats sampleVps, initStats sampleVps2]
    [initStats sampleVps, initStats sampleVps2] "12:00:00" rfl (List.Perm.refl _)
  exact ⟨h.1, h.2.1, h.2.2.1, h.2.2.2⟩

end Dashboard
